import Mathlib

/-!
Verification development for the cost-management core of the
user_journey_agent repository (src/backend/cost-management).

The Python modules are shallowly embedded: pure computations become Lean
functions over `List`, `String`, `Option`, `Int`, `Nat` and `ℚ`; calls into
collaborators that may raise exceptions are modelled by explicit outcome
values; money amounts are rationals (the Python floats in play are small
decimal literals combined by `+`, `-`, `*`, so rational arithmetic matches
the intended real-number semantics). Wall-clock data (timestamps, durations)
and logging are not modelled.
-/

namespace UserJourneyAgent

/-- Outcome of one collaborator call: either it returned a value or it raised
an exception carrying a message, as observed in a `try ... except` block. -/
inductive StepOutcome (α : Type) where
  | ok (value : α)
  | exn (msg : String)
deriving DecidableEq

/-- Result of a single manager operation, embedding
`service_manager.ServiceResult` (the wall-clock timestamp and the free-form
detail map are not modelled; no claim mentions them). -/
structure ServiceResult where
  success : Bool
  operation : String
  service_type : String
  resources_affected : List String := []
  errors : List String := []
  warnings : List String := []
deriving DecidableEq

/-- Entry of the controller aggregate `service_results` map: a completed
manager call stores its result, a raising one stores the failure record
built in the `except` branch. -/
inductive StepSummary where
  | completed (r : ServiceResult)
  | failed (msg : String)
deriving DecidableEq

/-- Result of a controller operation, embedding `controller.OperationResult`
(timestamp and duration are not modelled). -/
structure OperationResult where
  success : Bool
  operation : String
  resources_affected : List String := []
  errors : List String := []
  warnings : List String := []
  cost_impact : ℚ := 0
  service_results : List (String × StepSummary) := []
deriving DecidableEq

/-- Embedding of `ResourceController._calculate_cost_savings`: a fixed
formula, 1 shard times 0.015 dollars per shard-hour times 24 hours; the
manager results are never consulted. The Python body cannot raise, so the
`except` fallback returning 0.0 is dead code. -/
def calculate_cost_savings : ℚ := 1 * (15 / 1000) * 24

/-- Accumulator threaded through the controller per-manager steps. -/
structure StepAcc where
  resources_affected : List String
  errors : List String
  warnings : List String
  service_results : List (String × StepSummary)
deriving DecidableEq

/-- One controller step block (`try: result = manager.op(...)` followed by
list extension, `except` appending an error and a failure record). -/
def mergeStep (acc : StepAcc) (key failMsgHead : String)
    (outcome : StepOutcome ServiceResult) : StepAcc :=
  match outcome with
  | .ok r =>
      { resources_affected := acc.resources_affected ++ r.resources_affected
        errors := acc.errors ++ r.errors
        warnings := acc.warnings ++ r.warnings
        service_results := acc.service_results ++ [(key, .completed r)] }
  | .exn m =>
      { acc with
        errors := acc.errors ++ [failMsgHead ++ m]
        service_results := acc.service_results ++ [(key, .failed m)] }

/-- The collaborator outcomes one invocation of
`ResourceController.stop_all_resources` observes. -/
structure StopEnv where
  save_state : StepOutcome Unit
  lambda_stop : StepOutcome ServiceResult
  kinesis_stop : StepOutcome ServiceResult
  cloudwatch_stop : StepOutcome ServiceResult
deriving DecidableEq

/-- Embedding of `ResourceController.stop_all_resources`: save state (skipped
in dry run; a raise is appended to `errors`), then the Lambda, Kinesis and
CloudWatch stop steps, then the fixed cost-savings formula; overall success
is "no errors and at least one resource affected". -/
def stop_all_resources (env : StopEnv) (is_dry_run : Bool) : OperationResult :=
  let errors0 : List String :=
    if is_dry_run then []
    else match env.save_state with
      | .ok _ => []
      | .exn m => ["Failed to save state: " ++ m]
  let acc0 : StepAcc := ⟨[], errors0, [], []⟩
  let acc1 := mergeStep acc0 "lambda" "Lambda stop failed: " env.lambda_stop
  let acc2 := mergeStep acc1 "kinesis" "Kinesis stop failed: " env.kinesis_stop
  let acc3 := mergeStep acc2 "cloudwatch" "CloudWatch stop failed: " env.cloudwatch_stop
  { success := acc3.errors.isEmpty && !acc3.resources_affected.isEmpty
    operation := "stop"
    resources_affected := acc3.resources_affected
    errors := acc3.errors
    warnings := acc3.warnings
    cost_impact := calculate_cost_savings
    service_results := acc3.service_results }

/-- The collaborator outcomes one invocation of
`ResourceController.start_all_resources` observes. `load_state` carries the
number of loaded resource types (only logged); `verify` carries the warning
list of `_verify_resources_operational`. -/
structure StartEnv where
  state_exists : Bool
  load_state : StepOutcome Nat
  cloudwatch_start : StepOutcome ServiceResult
  kinesis_start : StepOutcome ServiceResult
  lambda_start : StepOutcome ServiceResult
  verify : StepOutcome (List String)
deriving DecidableEq

/-- Embedding of `ResourceController.start_all_resources`: load state
(absence and load failure are warnings), then the CloudWatch, Kinesis and
Lambda start steps, then the verification pass (warnings only); overall
success is "no errors and at least one resource affected". -/
def start_all_resources (env : StartEnv) (is_dry_run : Bool) : OperationResult :=
  let warnings0 : List String :=
    if is_dry_run then []
    else if !env.state_exists then ["No saved state found, using default configurations"]
    else match env.load_state with
      | .ok _ => []
      | .exn m => ["Failed to load state: " ++ m]
  let acc0 : StepAcc := ⟨[], [], warnings0, []⟩
  let acc1 := mergeStep acc0 "cloudwatch" "CloudWatch start failed: " env.cloudwatch_start
  let acc2 := mergeStep acc1 "kinesis" "Kinesis start failed: " env.kinesis_start
  let acc3 := mergeStep acc2 "lambda" "Lambda start failed: " env.lambda_start
  let warningsV : List String :=
    if is_dry_run then acc3.warnings
    else match env.verify with
      | .ok ws => acc3.warnings ++ ws
      | .exn m => acc3.warnings ++ ["Resource verification failed: " ++ m]
  { success := acc3.errors.isEmpty && !acc3.resources_affected.isEmpty
    operation := "start"
    resources_affected := acc3.resources_affected
    errors := acc3.errors
    warnings := warningsV
    service_results := acc3.service_results }

/-- Per-manager counts and cost, embedding the fields of
`service_manager.ServiceStatus` that `get_resource_status` reads. -/
structure ManagerStatus where
  total_resources : Nat
  running_resources : Nat
  stopped_resources : Nat
  estimated_hourly_cost : ℚ
deriving DecidableEq

/-- Aggregate status report, embedding `controller.ResourceStatusReport`
(timestamp, per-service detail maps and recommendations are not modelled by
the claims settled here). -/
structure ResourceStatusReport where
  overall_status : String
  total_resources : Nat
  running_resources : Nat
  stopped_resources : Nat
  estimated_hourly_cost : ℚ
  estimated_daily_cost : ℚ
  estimated_monthly_cost : ℚ
deriving DecidableEq

/-- Running sums of `get_resource_status`. -/
structure StatusAcc where
  total : Nat
  running : Nat
  stopped : Nat
  hourly : ℚ
deriving DecidableEq

/-- One `try: status = manager.get_status()` block of `get_resource_status`:
a raising manager contributes nothing to the sums. -/
def addStatus (acc : StatusAcc) (s : StepOutcome ManagerStatus) : StatusAcc :=
  match s with
  | .ok st =>
      { total := acc.total + st.total_resources
        running := acc.running + st.running_resources
        stopped := acc.stopped + st.stopped_resources
        hourly := acc.hourly + st.estimated_hourly_cost }
  | .exn _ => acc

/-- Embedding of `ResourceController.get_resource_status`: sum the three
manager statuses (a raising manager is skipped), derive daily and monthly
cost, and derive the overall status from the summed counts. -/
def get_resource_status
    (lambda_status kinesis_status cloudwatch_status : StepOutcome ManagerStatus) :
    ResourceStatusReport :=
  let a1 := addStatus ⟨0, 0, 0, 0⟩ lambda_status
  let a2 := addStatus a1 kinesis_status
  let a3 := addStatus a2 cloudwatch_status
  let daily := a3.hourly * 24
  { overall_status :=
      if a3.stopped = a3.total ∧ 0 < a3.total then "stopped"
      else if 0 < a3.running then "running"
      else "unknown"
    total_resources := a3.total
    running_resources := a3.running
    stopped_resources := a3.stopped
    estimated_hourly_cost := a3.hourly
    estimated_daily_cost := daily
    estimated_monthly_cost := daily * 30 }

/-- Claim C1: for every invocation of `stop_all_resources` and
`start_all_resources` the returned success flag is true iff the accumulated
errors list is empty and the accumulated resources_affected list is
non-empty; in particular a zero-error, zero-affected run is unsuccessful,
and when exactly one of the three managers throws during stop, errors is
non-empty, the succeeding managers' entries stay in resources_affected, and
success is false. -/
theorem c1_aggregate_success :
    (∀ (env : StopEnv) (dry : Bool),
      (stop_all_resources env dry).success = true ↔
        ((stop_all_resources env dry).errors = [] ∧
         (stop_all_resources env dry).resources_affected ≠ []))
    ∧ (∀ (env : StartEnv) (dry : Bool),
      (start_all_resources env dry).success = true ↔
        ((start_all_resources env dry).errors = [] ∧
         (start_all_resources env dry).resources_affected ≠ []))
    ∧ (∀ (env : StopEnv) (dry : Bool),
      (stop_all_resources env dry).resources_affected = [] →
        (stop_all_resources env dry).success = false)
    ∧ (∀ (m : String) (rk rc : ServiceResult),
      (stop_all_resources ⟨.ok (), .exn m, .ok rk, .ok rc⟩ false).errors ≠ [] ∧
      rk.resources_affected ⊆
        (stop_all_resources ⟨.ok (), .exn m, .ok rk, .ok rc⟩ false).resources_affected ∧
      rc.resources_affected ⊆
        (stop_all_resources ⟨.ok (), .exn m, .ok rk, .ok rc⟩ false).resources_affected ∧
      (stop_all_resources ⟨.ok (), .exn m, .ok rk, .ok rc⟩ false).success = false)
    ∧ (∀ (m : String) (rl rc : ServiceResult),
      (stop_all_resources ⟨.ok (), .ok rl, .exn m, .ok rc⟩ false).errors ≠ [] ∧
      rl.resources_affected ⊆
        (stop_all_resources ⟨.ok (), .ok rl, .exn m, .ok rc⟩ false).resources_affected ∧
      rc.resources_affected ⊆
        (stop_all_resources ⟨.ok (), .ok rl, .exn m, .ok rc⟩ false).resources_affected ∧
      (stop_all_resources ⟨.ok (), .ok rl, .exn m, .ok rc⟩ false).success = false)
    ∧ (∀ (m : String) (rl rk : ServiceResult),
      (stop_all_resources ⟨.ok (), .ok rl, .ok rk, .exn m⟩ false).errors ≠ [] ∧
      rl.resources_affected ⊆
        (stop_all_resources ⟨.ok (), .ok rl, .ok rk, .exn m⟩ false).resources_affected ∧
      rk.resources_affected ⊆
        (stop_all_resources ⟨.ok (), .ok rl, .ok rk, .exn m⟩ false).resources_affected ∧
      (stop_all_resources ⟨.ok (), .ok rl, .ok rk, .exn m⟩ false).success = false) := by
  refine ⟨?_, ?_, ?_, ?_, ?_, ?_⟩
  · intro env dry
    simp [stop_all_resources, Bool.and_eq_true, List.isEmpty_iff, List.isEmpty_eq_true]
  · intro env dry
    simp [start_all_resources, Bool.and_eq_true, List.isEmpty_iff, List.isEmpty_eq_true]
  · intro env dry h
    simp only [stop_all_resources] at h ⊢
    simp [h]
  · intro m rk rc
    refine ⟨by simp [stop_all_resources, mergeStep], ?_, ?_, ?_⟩
    · intro x hx
      simp [stop_all_resources, mergeStep, List.mem_append]
      exact Or.inl hx
    · intro x hx
      simp [stop_all_resources, mergeStep, List.mem_append]
      exact Or.inr hx
    · simp [stop_all_resources, mergeStep]
  · intro m rl rc
    refine ⟨by simp [stop_all_resources, mergeStep], ?_, ?_, ?_⟩
    · intro x hx
      simp [stop_all_resources, mergeStep, List.mem_append]
      exact Or.inl hx
    · intro x hx
      simp [stop_all_resources, mergeStep, List.mem_append]
      exact Or.inr hx
    · simp [stop_all_resources, mergeStep]
  · intro m rl rk
    refine ⟨by simp [stop_all_resources, mergeStep], ?_, ?_, ?_⟩
    · intro x hx
      simp [stop_all_resources, mergeStep, List.mem_append]
      exact Or.inl hx
    · intro x hx
      simp [stop_all_resources, mergeStep, List.mem_append]
      exact Or.inr hx
    · simp [stop_all_resources, mergeStep]

/-- Witness for C1 at concrete inputs: a dry run whose three managers report
no affected resources has `resources_affected = []` and is unsuccessful. -/
theorem c1_aggregate_success_witness :
    (stop_all_resources
        ⟨.ok (), .ok ⟨true, "stop", "lambda", [], [], []⟩,
         .ok ⟨true, "stop", "kinesis", [], [], []⟩,
         .ok ⟨true, "stop", "cloudwatch", [], [], []⟩⟩ true).resources_affected = [] ∧
    (stop_all_resources
        ⟨.ok (), .ok ⟨true, "stop", "lambda", [], [], []⟩,
         .ok ⟨true, "stop", "kinesis", [], [], []⟩,
         .ok ⟨true, "stop", "cloudwatch", [], [], []⟩⟩ true).success = false := by
  refine ⟨by decide, c1_aggregate_success.2.2.1 _ true (by decide)⟩

/-- Concrete stop invocation in which saving the snapshot raises and all
three managers succeed, each affecting one resource. -/
def c2Env : StopEnv :=
  ⟨.exn "disk full",
   .ok ⟨true, "stop", "lambda", ["event_processor"], [], []⟩,
   .ok ⟨true, "stop", "kinesis", ["user-events"], [], []⟩,
   .ok ⟨true, "stop", "cloudwatch", ["alarm-1"], [], []⟩⟩

/-- Counterexample to claim C2: when saving the snapshot raises in a
non-dry-run stop, the failure message lands in `errors`, not in `warnings`,
and although every manager succeeded and resources were affected, the
aggregate result is unsuccessful — so the snapshot-save failure alone does
make the run unsuccessful. -/
theorem c2_counterexample :
    ("Failed to save state: disk full") ∈ (stop_all_resources c2Env false).errors ∧
    (stop_all_resources c2Env false).warnings = [] ∧
    (stop_all_resources c2Env false).resources_affected ≠ [] ∧
    (stop_all_resources c2Env false).success = false := by
  refine ⟨?_, ?_, ?_, ?_⟩ <;> decide

/-- Claim C2 as amended: in a non-dry-run stop, a snapshot-save raise is
recorded as an error (never as a warning), the controller still proceeds to
stop the function set, the stream and the alarm set (their affected
resources, errors and warnings are all merged in order), and the aggregate
result is always unsuccessful. -/
theorem c2_save_failure_is_error (m : String) (rl rk rc : ServiceResult) :
    (stop_all_resources ⟨.exn m, .ok rl, .ok rk, .ok rc⟩ false).errors =
      ("Failed to save state: " ++ m) :: (rl.errors ++ rk.errors ++ rc.errors) ∧
    (stop_all_resources ⟨.exn m, .ok rl, .ok rk, .ok rc⟩ false).warnings =
      rl.warnings ++ rk.warnings ++ rc.warnings ∧
    (stop_all_resources ⟨.exn m, .ok rl, .ok rk, .ok rc⟩ false).resources_affected =
      rl.resources_affected ++ rk.resources_affected ++ rc.resources_affected ∧
    (stop_all_resources ⟨.exn m, .ok rl, .ok rk, .ok rc⟩ false).success = false := by
  refine ⟨?_, ?_, ?_, ?_⟩ <;> simp [stop_all_resources, mergeStep]

/-- Claim C6: the `cost_impact` reported by `stop_all_resources` is not taken
from the manager results: on every invocation it equals the fixed formula
1 shard times 0.015 dollars per hour times 24 hours = 0.36 dollars per day,
to which only the stream shard cost contributes. -/
theorem c6_cost_impact_constant (env : StopEnv) (dry : Bool) :
    (stop_all_resources env dry).cost_impact = calculate_cost_savings ∧
    calculate_cost_savings = 1 * (15 / 1000) * 24 ∧
    calculate_cost_savings = 9 / 25 := by
  refine ⟨rfl, rfl, by norm_num [calculate_cost_savings]⟩

/-- Claim C10: `get_resource_status` derives the overall status from the
summed per-manager counts: it reports "stopped" exactly when the stopped
count equals the total count and the total is positive; otherwise "running"
exactly when at least one resource is running; otherwise "unknown". -/
theorem c10_overall_status (ls ks cs : StepOutcome ManagerStatus) :
    ((get_resource_status ls ks cs).overall_status = "stopped" ↔
      ((get_resource_status ls ks cs).stopped_resources =
          (get_resource_status ls ks cs).total_resources ∧
        0 < (get_resource_status ls ks cs).total_resources)) ∧
    ((get_resource_status ls ks cs).overall_status = "running" ↔
      (¬((get_resource_status ls ks cs).stopped_resources =
            (get_resource_status ls ks cs).total_resources ∧
          0 < (get_resource_status ls ks cs).total_resources) ∧
        0 < (get_resource_status ls ks cs).running_resources)) ∧
    ((get_resource_status ls ks cs).overall_status = "unknown" ↔
      (¬((get_resource_status ls ks cs).stopped_resources =
            (get_resource_status ls ks cs).total_resources ∧
          0 < (get_resource_status ls ks cs).total_resources) ∧
        ¬0 < (get_resource_status ls ks cs).running_resources)) := by
  simp only [get_resource_status]
  by_cases h1 :
      (addStatus (addStatus (addStatus ⟨0, 0, 0, 0⟩ ls) ks) cs).stopped =
        (addStatus (addStatus (addStatus ⟨0, 0, 0, 0⟩ ls) ks) cs).total ∧
      0 < (addStatus (addStatus (addStatus ⟨0, 0, 0, 0⟩ ls) ks) cs).total
  · simp [h1]
  · by_cases h2 : 0 < (addStatus (addStatus (addStatus ⟨0, 0, 0, 0⟩ ls) ks) cs).running
    · simp [h1, h2]
    · simp [h1, h2]

/-- JSON values, the data carried by the persisted state document
(`state_manager` serializes with the standard json module; numbers are
modelled as rationals). -/
inductive Json where
  | null
  | bool (b : Bool)
  | num (q : ℚ)
  | str (s : String)
  | arr (items : List Json)
  | obj (fields : List (String × Json))

/-- Python truthiness of a JSON value, used by `metadata or {}`. -/
def pyTruthy : Json → Bool
  | .null => false
  | .bool b => b
  | .num q => q != 0
  | .str s => s != ""
  | .arr items => !items.isEmpty
  | .obj fields => !fields.isEmpty

/-- Whether a JSON value is a list (`isinstance(resources, list)`). -/
def isArrB : Json → Bool
  | .arr _ => true
  | _ => false

/-- Whether a JSON value is a dict (`isinstance(..., dict)`). -/
def isObjB : Json → Bool
  | .obj _ => true
  | _ => false

/-- Whether a JSON value equals a given string (`state_data['version'] ==
STATE_VERSION` for an arbitrary JSON value). -/
def jsonIsStrEq : Json → String → Bool
  | .str s, t => s == t
  | _, _ => false

/-- Dictionary lookup on a parsed JSON object (`data[key]` / `data.get(key)`;
documents built by this module have unique keys). -/
def lookupField (doc : List (String × Json)) (key : String) : Option Json :=
  (doc.find? (fun kv => kv.1 == key)).map (fun kv => kv.2)

/-- `StateManager.STATE_VERSION`. -/
def STATE_VERSION : String := "1.0"

/-- The required top-level fields checked by `StateManager._validate_state`. -/
def requiredFields : List String :=
  ["version", "timestamp", "project", "environment", "resources"]

/-- Embedding of `StateManager._validate_state`: raises (as `.error`) when a
required field is missing, when `resources` is not a dictionary, or when a
resource-kind value is not a list; a version mismatch only yields a warning,
returned as data here since the Python logs it. -/
def validate_state (doc : List (String × Json)) : Except String (List String) :=
  match requiredFields.find? (fun f => (lookupField doc f).isNone) with
  | some f => .error ("Missing required field in state: " ++ f)
  | none =>
    let warns : List String :=
      if jsonIsStrEq ((lookupField doc "version").getD .null) STATE_VERSION then []
      else ["State version mismatch: expected " ++ STATE_VERSION]
    match lookupField doc "resources" with
    | some (Json.obj kvs) =>
        match kvs.find? (fun kv => !isArrB kv.2) with
        | some kv => .error ("Invalid resource list for " ++ kv.1 ++ ": must be a list")
        | none => .ok warns
    | _ => .error "Invalid resources structure: must be a dictionary"

/-- The persisted state document as a dataclass, embedding
`state_manager.ResourceState` (fields keep the parsed JSON payloads, as the
Python dataclass performs no type conversion). -/
structure ResourceState where
  version : Json
  timestamp : Json
  project : Json
  environment : Json
  resources : Json
  metadata : Json

/-- The keyword arguments `ResourceState.from_dict` accepts. -/
def allowedFields : List String := requiredFields ++ ["metadata"]

/-- Embedding of `ResourceState.from_dict` (`cls(**data)`): every key must
name a dataclass field, the five fields without defaults must be present,
and `metadata` defaults to the empty dict. -/
def ResourceState.from_dict (doc : List (String × Json)) : Except String ResourceState :=
  if doc.all (fun kv => allowedFields.contains kv.1) then
    match lookupField doc "version", lookupField doc "timestamp",
          lookupField doc "project", lookupField doc "environment",
          lookupField doc "resources" with
    | some v, some t, some p, some e, some r =>
        .ok ⟨v, t, p, e, r, (lookupField doc "metadata").getD (.obj [])⟩
    | _, _, _, _, _ => .error "missing required dataclass field"
  else .error "unexpected keyword argument"

/-- The exception type `load_state` and `save_state` surface: every failure
is wrapped into a StateError. -/
inductive StateError where
  | stateError (msg : String)
deriving DecidableEq

/-- Embedding of `StateManager.load_state` over the local file content
(`none` = file absent): absence raises StateError; validation failures
(ValidationError) and `from_dict` failures (TypeError) are caught by the
generic handler and re-raised as StateError; on success the loaded state is
returned together with the validation warnings. -/
def load_state (file : Option (List (String × Json))) :
    Except StateError (ResourceState × List String) :=
  match file with
  | none => .error (.stateError "State file not found")
  | some doc =>
    match validate_state doc with
    | .error m => .error (.stateError ("Failed to load state: " ++ m))
    | .ok warns =>
      match ResourceState.from_dict doc with
      | .error m => .error (.stateError ("Failed to load state: " ++ m))
      | .ok st => .ok (st, warns)

/-- The local state file and its one-level `.backup` copy. -/
structure LocalStore where
  file : Option (List (String × Json))
  backupFile : Option (List (String × Json))

/-- The document `StateManager.save_state` builds (dataclass `asdict`): all
six top-level fields, version fixed to STATE_VERSION. -/
def stateDoc (project environment timestamp : String)
    (resources metadata : Json) : List (String × Json) :=
  [("version", .str STATE_VERSION), ("timestamp", .str timestamp),
   ("project", .str project), ("environment", .str environment),
   ("resources", resources), ("metadata", metadata)]

/-- Embedding of `StateManager.save_state` restricted to the local file (no
S3 bucket configured, so the best-effort backup upload is skipped): build
the document with `metadata or {}`, validate it, rename any existing file to
the `.backup` copy, write the new file. -/
def save_state (project environment timestamp : String)
    (resources metadata : Json) (fs : LocalStore) : Except StateError LocalStore :=
  let doc := stateDoc project environment timestamp resources
    (if pyTruthy metadata then metadata else .obj [])
  match validate_state doc with
  | .error m => .error (.stateError ("Failed to save state: " ++ m))
  | .ok _ =>
    .ok { file := some doc
          backupFile := match fs.file with | some f => some f | none => fs.backupFile }

/-- Well-formedness of a resources map: a dictionary all of whose values are
lists — exactly the shape `_validate_state` accepts. -/
def isResourceMapB : Json → Bool
  | .obj kvs => kvs.all (fun kv => isArrB kv.2)
  | _ => false

/-- Helper: an all-true Boolean predicate forces `find?` of its negation to
return nothing. -/
theorem find?_not_of_all {α : Type} (l : List α) (p : α → Bool)
    (h : l.all p = true) : l.find? (fun x => !p x) = none := by
  rw [List.find?_eq_none]
  intro x hx
  simp [List.all_eq_true.mp h x hx]

/-- Claim C3: for every well-formed resources map R (a dictionary mapping
resource-kind names to lists) and every metadata dictionary M, saving and
then loading returns a state whose `resources` equals R and whose
`metadata` equals M. -/
theorem c3_save_load_roundtrip (project environment timestamp : String)
    (R M : Json) (fs : LocalStore)
    (hR : isResourceMapB R = true) (hM : isObjB M = true) :
    ∃ fs2 : LocalStore,
      save_state project environment timestamp R M fs = .ok fs2 ∧
      ∃ (st : ResourceState) (warns : List String),
        load_state fs2.file = .ok (st, warns) ∧
        st.resources = R ∧ st.metadata = M := by
  have hMeta : (if pyTruthy M then M else Json.obj []) = M := by
    cases M with
    | obj fields =>
        cases fields with
        | nil => simp [pyTruthy]
        | cons kv rest => simp [pyTruthy]
    | null => exact absurd hM (by simp [isObjB])
    | bool b => exact absurd hM (by simp [isObjB])
    | num q => exact absurd hM (by simp [isObjB])
    | str s => exact absurd hM (by simp [isObjB])
    | arr items => exact absurd hM (by simp [isObjB])
  cases R with
  | obj kvs =>
      have hfind : kvs.find? (fun kv => !isArrB kv.2) = none :=
        find?_not_of_all kvs _ hR
      have hval : validate_state
          (stateDoc project environment timestamp (Json.obj kvs) M) = .ok [] := by
        have hstep : validate_state
            (stateDoc project environment timestamp (Json.obj kvs) M) =
            (match kvs.find? (fun kv => !isArrB kv.2) with
              | some kv =>
                  Except.error ("Invalid resource list for " ++ kv.1 ++ ": must be a list")
              | none => Except.ok ([] : List String)) := rfl
        rw [hstep, hfind]
      refine ⟨⟨some (stateDoc project environment timestamp (Json.obj kvs) M),
          match fs.file with | some f => some f | none => fs.backupFile⟩, ?_, ?_⟩
      · simp only [save_state, hMeta]
        rw [hval]
      · refine ⟨⟨.str STATE_VERSION, .str timestamp, .str project,
            .str environment, .obj kvs, M⟩, [], ?_, rfl, rfl⟩
        show load_state
            (some (stateDoc project environment timestamp (Json.obj kvs) M)) = _
        simp only [load_state]
        rw [hval]
        rfl
  | null => exact absurd hR (by simp [isResourceMapB])
  | bool b => exact absurd hR (by simp [isResourceMapB])
  | num q => exact absurd hR (by simp [isResourceMapB])
  | str s => exact absurd hR (by simp [isResourceMapB])
  | arr items => exact absurd hR (by simp [isResourceMapB])

/-- Witness for C3 at a concrete input: one resource kind with an empty
list and a one-entry metadata dictionary round-trip through save and load. -/
theorem c3_save_load_roundtrip_witness :
    ∃ fs2 : LocalStore,
      save_state "user-journey-analytics" "prod" "2025-01-01T00:00:00Z"
        (.obj [("lambda_functions", .arr [])]) (.obj [("saved_by", .str "ResourceController")])
        ⟨none, none⟩ = .ok fs2 ∧
      ∃ (st : ResourceState) (warns : List String),
        load_state fs2.file = .ok (st, warns) ∧
        st.resources = .obj [("lambda_functions", .arr [])] ∧
        st.metadata = .obj [("saved_by", .str "ResourceController")] :=
  c3_save_load_roundtrip "user-journey-analytics" "prod" "2025-01-01T00:00:00Z"
    (.obj [("lambda_functions", .arr [])]) (.obj [("saved_by", .str "ResourceController")])
    ⟨none, none⟩ rfl rfl

/-- A state document with an arbitrary version payload and otherwise the
canonical six-field shape (as written by any save of this module, possibly
an older or newer schema). -/
def stateDocV (v : Json) (project environment timestamp : String)
    (resources metadata : Json) : List (String × Json) :=
  [("version", v), ("timestamp", .str timestamp),
   ("project", .str project), ("environment", .str environment),
   ("resources", resources), ("metadata", metadata)]

/-- Claim C9: `load_state` raises a StateError when the file is absent and
when any required top-level field is missing, while a version value
different from the expected schema version alone only produces a warning
and the load succeeds. -/
theorem c9_load_failure_modes :
    (load_state none = .error (.stateError "State file not found"))
    ∧ (∀ (doc : List (String × Json)) (f : String),
        f ∈ requiredFields → lookupField doc f = none →
        ∃ m, load_state (some doc) = .error (.stateError m))
    ∧ (∀ (v : Json) (project environment timestamp : String) (R M : Json),
        isResourceMapB R = true → jsonIsStrEq v STATE_VERSION = false →
        load_state (some (stateDocV v project environment timestamp R M)) =
          .ok (⟨v, .str timestamp, .str project, .str environment, R, M⟩,
            ["State version mismatch: expected " ++ STATE_VERSION])) := by
  refine ⟨rfl, ?_, ?_⟩
  · intro doc f hf hnone
    have hsome : (requiredFields.find? (fun g => (lookupField doc g).isNone)).isSome := by
      rw [List.find?_isSome]
      exact ⟨f, hf, by simp [hnone]⟩
    obtain ⟨g, hg⟩ := Option.isSome_iff_exists.mp hsome
    refine ⟨"Failed to load state: " ++ ("Missing required field in state: " ++ g), ?_⟩
    simp only [load_state, validate_state, hg]
  · intro v project environment timestamp R M hR hv
    cases R with
    | obj kvs =>
        have hfind : kvs.find? (fun kv => !isArrB kv.2) = none :=
          find?_not_of_all kvs _ hR
        have hstep : validate_state
            (stateDocV v project environment timestamp (Json.obj kvs) M) =
            (match kvs.find? (fun kv => !isArrB kv.2) with
              | some kv =>
                  Except.error ("Invalid resource list for " ++ kv.1 ++ ": must be a list")
              | none =>
                  Except.ok (if jsonIsStrEq v STATE_VERSION then []
                    else ["State version mismatch: expected " ++ STATE_VERSION])) := rfl
        have hval : validate_state
            (stateDocV v project environment timestamp (Json.obj kvs) M) =
            .ok ["State version mismatch: expected " ++ STATE_VERSION] := by
          rw [hstep, hfind]
          simp [hv]
        simp only [load_state]
        rw [hval]
        rfl
    | null => exact absurd hR (by simp [isResourceMapB])
    | bool b => exact absurd hR (by simp [isResourceMapB])
    | num q => exact absurd hR (by simp [isResourceMapB])
    | str s => exact absurd hR (by simp [isResourceMapB])
    | arr items => exact absurd hR (by simp [isResourceMapB])

/-- Witness for C9 at concrete inputs: a document holding only a version
field fails to load with a StateError, and a well-formed document whose
version is "0.9" loads successfully with the version-mismatch warning. -/
theorem c9_load_failure_modes_witness :
    (∃ m, load_state (some [("version", Json.str "1.0")]) = .error (.stateError m)) ∧
    load_state (some (stateDocV (Json.str "0.9") "p" "e" "t" (Json.obj []) Json.null)) =
      .ok (⟨Json.str "0.9", Json.str "t", Json.str "p", Json.str "e",
        Json.obj [], Json.null⟩,
        ["State version mismatch: expected " ++ STATE_VERSION]) := by
  refine ⟨c9_load_failure_modes.2.1 _ "timestamp" (by decide) rfl,
    c9_load_failure_modes.2.2 (Json.str "0.9") "p" "e" "t" (Json.obj []) Json.null rfl rfl⟩

/-- Kinesis pricing constant `KinesisPricing.SHARD_HOUR` (dollars per shard
hour). -/
def SHARD_HOUR : ℚ := 15 / 1000

/-- `KinesisPricing.PUT_PAYLOAD_UNIT` (dollars per million PUT payload
units). -/
def PUT_PAYLOAD_UNIT : ℚ := 14 / 1000

/-- `KinesisPricing.EXTENDED_RETENTION_HOUR`. -/
def EXTENDED_RETENTION_HOUR : ℚ := 20 / 1000

/-- `KinesisPricing.ENHANCED_FANOUT_HOUR`. -/
def ENHANCED_FANOUT_HOUR : ℚ := 15 / 1000

/-- `LambdaPricing.REQUEST` (dollars per request). -/
def LAMBDA_REQUEST : ℚ := (20 / 100) / 1000000

/-- `LambdaPricing.GB_SECOND`. -/
def LAMBDA_GB_SECOND : ℚ := 166667 / 10000000000

/-- `LambdaPricing.FREE_TIER_REQUESTS`. -/
def FREE_TIER_REQUESTS : ℚ := 1000000

/-- `LambdaPricing.FREE_TIER_GB_SECONDS`. -/
def FREE_TIER_GB_SECONDS : ℚ := 400000

/-- `CloudWatchPricing.ALARM` (dollars per alarm per month). -/
def ALARM_MONTHLY : ℚ := 10 / 100

/-- `CloudWatchPricing.LOG_INGESTION_GB`. -/
def LOG_INGESTION_GB : ℚ := 50 / 100

/-- `CloudWatchPricing.LOG_STORAGE_GB`. -/
def LOG_STORAGE_GB : ℚ := 3 / 100

/-- `CloudWatchPricing.CUSTOM_METRIC`. -/
def CUSTOM_METRIC : ℚ := 30 / 100

/-- `SageMakerPricing.ML_M5_LARGE_HOUR`. -/
def ML_M5_LARGE_HOUR : ℚ := 115 / 1000

/-- `SageMakerPricing.ML_M5_XLARGE_HOUR`. -/
def ML_M5_XLARGE_HOUR : ℚ := 23 / 100

/-- `SageMakerPricing.ML_T3_MEDIUM_HOUR`. -/
def ML_T3_MEDIUM_HOUR : ℚ := 5 / 100

/-- Per-service cost breakdown, embedding `cost_calculator.ServiceCost`
(the free-form detail map is not modelled). -/
structure ServiceCost where
  service_name : String
  resource_count : Int
  hourly_cost : ℚ
  daily_cost : ℚ
  monthly_cost : ℚ
deriving DecidableEq

/-- Total cost estimate, embedding `cost_calculator.CostEstimate`
(timestamp and region are not modelled). -/
structure CostEstimate where
  hourly_cost : ℚ
  daily_cost : ℚ
  monthly_cost : ℚ
  total_resources : Int
  service_breakdown : List ServiceCost
deriving DecidableEq

/-- Embedding of `CostCalculator.calculate_kinesis_cost`. -/
def calculate_kinesis_cost (shard_count : Int) (retention_hours : ℚ)
    (put_records_per_hour : ℚ) (enhanced_fanout_consumers : Int) : ServiceCost :=
  let hourly_shard_cost := (shard_count : ℚ) * SHARD_HOUR
  let extended_retention_cost :=
    if 24 < retention_hours then
      (shard_count : ℚ) * ((retention_hours - 24) / 24) * EXTENDED_RETENTION_HOUR
    else 0
  let put_payload_units := (put_records_per_hour * 5) / 25
  let put_cost_hourly := (put_payload_units / 1000000) * PUT_PAYLOAD_UNIT
  let enhanced_fanout_cost :=
    (enhanced_fanout_consumers : ℚ) * (shard_count : ℚ) * ENHANCED_FANOUT_HOUR
  let hourly_cost :=
    hourly_shard_cost + extended_retention_cost + put_cost_hourly + enhanced_fanout_cost
  { service_name := "Kinesis Data Streams"
    resource_count := shard_count
    hourly_cost := hourly_cost
    daily_cost := hourly_cost * 24
    monthly_cost := hourly_cost * 24 * 30 }

/-- Embedding of `CostCalculator.calculate_lambda_cost`. -/
def calculate_lambda_cost (function_count : Int) (invocations_per_hour : ℚ)
    (avg_duration_ms avg_memory_mb : ℚ) (reserved_concurrency : Int) : ServiceCost :=
  let monthly_invocations := invocations_per_hour * 24 * 30
  let billable_invocations := max 0 (monthly_invocations - FREE_TIER_REQUESTS)
  let request_cost_monthly := billable_invocations * LAMBDA_REQUEST
  let gb_seconds_per_invocation := (avg_memory_mb / 1024) * (avg_duration_ms / 1000)
  let monthly_gb_seconds := monthly_invocations * gb_seconds_per_invocation
  let billable_gb_seconds := max 0 (monthly_gb_seconds - FREE_TIER_GB_SECONDS)
  let compute_cost_monthly := billable_gb_seconds * LAMBDA_GB_SECOND
  let monthly_cost := request_cost_monthly + compute_cost_monthly
  let zeroed := reserved_concurrency = 0 ∧ 0 < invocations_per_hour
  { service_name := "Lambda"
    resource_count := function_count
    hourly_cost := if zeroed then 0 else monthly_cost / 30 / 24
    daily_cost := if zeroed then 0 else monthly_cost / 30
    monthly_cost := if zeroed then 0 else monthly_cost }

/-- Embedding of `CostCalculator.calculate_cloudwatch_cost`. -/
def calculate_cloudwatch_cost (alarm_count : Int)
    (log_ingestion_gb_per_day log_storage_gb : ℚ) (custom_metrics : Int)
    (alarms_enabled : Bool) : ServiceCost :=
  let alarm_cost_monthly := if alarms_enabled then (alarm_count : ℚ) * ALARM_MONTHLY else 0
  let monthly_cost := alarm_cost_monthly
    + log_ingestion_gb_per_day * 30 * LOG_INGESTION_GB
    + log_storage_gb * LOG_STORAGE_GB
    + (custom_metrics : ℚ) * CUSTOM_METRIC
  { service_name := "CloudWatch"
    resource_count := alarm_count + custom_metrics
    hourly_cost := monthly_cost / 30 / 24
    daily_cost := monthly_cost / 30
    monthly_cost := monthly_cost }

/-- Embedding of `CostCalculator.calculate_sagemaker_cost` (the instance
type to hourly rate table, defaulting to ml.m5.large). -/
def calculate_sagemaker_cost (endpoint_count : Int) (instance_type : String)
    (instance_count_per_endpoint : Int) : ServiceCost :=
  let instance_hourly_cost :=
    if instance_type == "ml.m5.large" then ML_M5_LARGE_HOUR
    else if instance_type == "ml.m5.xlarge" then ML_M5_XLARGE_HOUR
    else if instance_type == "ml.t3.medium" then ML_T3_MEDIUM_HOUR
    else ML_M5_LARGE_HOUR
  let hourly_cost := (endpoint_count : ℚ) * (instance_count_per_endpoint : ℚ) * instance_hourly_cost
  { service_name := "SageMaker"
    resource_count := endpoint_count
    hourly_cost := hourly_cost
    daily_cost := hourly_cost * 24
    monthly_cost := hourly_cost * 24 * 30 }

/-- Embedding of `CostCalculator.calculate_total_cost`: component-wise sums
over the service breakdown. -/
def calculate_total_cost (service_costs : List ServiceCost) : CostEstimate :=
  { hourly_cost := (service_costs.map (fun s => s.hourly_cost)).sum
    daily_cost := (service_costs.map (fun s => s.daily_cost)).sum
    monthly_cost := (service_costs.map (fun s => s.monthly_cost)).sum
    total_resources := (service_costs.map (fun s => s.resource_count)).sum
    service_breakdown := service_costs }

/-- `dry_run.ChangeType`. -/
inductive ChangeType where
  | create | update | delete | enable | disable | scale_up | scale_down
deriving DecidableEq

/-- `dry_run.RiskLevel`. -/
inductive RiskLevel where
  | low | medium | high | critical
deriving DecidableEq

/-- Values stored in the current/proposed state maps of a ResourceChange. -/
inductive StateVal where
  | num (n : Int)
  | str (s : String)
  | bool (b : Bool)
deriving DecidableEq

/-- A proposed mutation, embedding `dry_run.ResourceChange` (the
`dependencies` list, unused by the stop simulators, is not modelled). -/
structure ResourceChange where
  resource_id : String
  resource_type : String
  change_type : ChangeType
  current_state : List (String × StateVal)
  proposed_state : List (String × StateVal)
  cost_impact : ℚ
  risk_level : RiskLevel
  warnings : List String := []
deriving DecidableEq

/-- Aggregate simulation outcome, embedding `dry_run.DryRunResult`
(timestamp not modelled). -/
structure DryRunResult where
  operation : String
  changes : List ResourceChange
  total_cost_impact : ℚ
  current_estimate : CostEstimate
  proposed_estimate : CostEstimate
  errors : List String := []
  warnings : List String := []
deriving DecidableEq

/-- One Kinesis stream record of the caller-supplied resource map. -/
structure KinesisStream where
  name : String
  shard_count : Int
deriving DecidableEq

/-- One Lambda function record; `none` models the JSON null used for
"no reserved concurrency limit". -/
structure LambdaFunction where
  name : String
  reserved_concurrency : Option Int
deriving DecidableEq

/-- One SageMaker endpoint record. -/
structure SageMakerEndpoint where
  name : String
  status : String
  instance_type : String
  instance_count : Int
deriving DecidableEq

/-- One CloudWatch alarm record. -/
structure CloudWatchAlarm where
  name : String
  enabled : Bool
deriving DecidableEq

/-- The caller-supplied resource-state map (`current_resources`); an absent
key is `none`, a present key carries its list of records. -/
structure ResourcesMap where
  kinesis : Option (List KinesisStream) := none
  lambdaFns : Option (List LambdaFunction) := none
  sagemaker : Option (List SageMakerEndpoint) := none
  cloudwatch : Option (List CloudWatchAlarm) := none
deriving DecidableEq

/-- Embedding of `DryRunValidator.validate_stop_operation`. -/
def validate_stop_operation (r : ResourcesMap) : List String × List String :=
  if r = ⟨none, none, none, none⟩ then (["No resources found to stop"], [])
  else
    let wk := match r.kinesis with
      | none => []
      | some [] => ["No Kinesis streams found"]
      | some streams =>
          streams.filterMap (fun s =>
            if s.shard_count ≤ 1 then
              some ("Kinesis stream " ++ s.name ++ " already at minimum shard count")
            else none)
    let wl := match r.lambdaFns with
      | none => []
      | some [] => ["No Lambda functions found"]
      | some fns =>
          fns.filterMap (fun f =>
            if f.reserved_concurrency == some 0 then
              some ("Lambda function " ++ f.name ++ " already has concurrency set to 0")
            else none)
    let ws := match r.sagemaker with
      | none => []
      | some [] => ["No SageMaker endpoints found"]
      | some eps =>
          eps.filterMap (fun ep =>
            if ep.status == "InService" || ep.status == "Creating" || ep.status == "Updating"
            then none
            else some ("SageMaker endpoint " ++ ep.name ++ " is in " ++ ep.status ++ " state"))
    let wc := match r.cloudwatch with
      | none => []
      | some [] => ["No CloudWatch alarms found"]
      | some alarms =>
          if (alarms.filter (fun a => !a.enabled)).length = alarms.length then
            ["All CloudWatch alarms are already disabled"]
          else []
    ([], wk ++ wl ++ ws ++ wc)

/-- Embedding of `DryRunSimulator._simulate_kinesis_stop`. -/
def simulate_kinesis_stop (s : KinesisStream) : Option ResourceChange :=
  if s.shard_count ≤ 1 then none
  else
    let current_cost := calculate_kinesis_cost s.shard_count 24 0 0
    let proposed_cost := calculate_kinesis_cost 1 24 0 0
    some { resource_id := s.name
           resource_type := "kinesis_stream"
           change_type := .scale_down
           current_state := [("shard_count", .num s.shard_count)]
           proposed_state := [("shard_count", .num 1)]
           cost_impact := current_cost.monthly_cost - proposed_cost.monthly_cost
           risk_level := if 2 < s.shard_count then .medium else .low
           warnings :=
             if 2 < s.shard_count then
               ["Reducing from " ++ toString s.shard_count ++ " shards to 1 may impact throughput"]
             else [] }

/-- Embedding of `DryRunSimulator._simulate_lambda_stop`. -/
def simulate_lambda_stop (f : LambdaFunction) : Option ResourceChange :=
  if f.reserved_concurrency == some 0 then none
  else
    some { resource_id := f.name
           resource_type := "lambda_function"
           change_type := .disable
           current_state := [("reserved_concurrency",
             match f.reserved_concurrency with
             | some n => .num n
             | none => .str "unlimited")]
           proposed_state := [("reserved_concurrency", .num 0)]
           cost_impact := 0
           risk_level := .high
           warnings := ["Function will not be able to process any requests",
                        "Event source mappings will be paused"] }

/-- Embedding of `DryRunSimulator._simulate_sagemaker_stop`. -/
def simulate_sagemaker_stop (ep : SageMakerEndpoint) : Option ResourceChange :=
  if ep.status == "InService" || ep.status == "Creating" || ep.status == "Updating" then
    let current_cost := calculate_sagemaker_cost 1 ep.instance_type ep.instance_count
    some { resource_id := ep.name
           resource_type := "sagemaker_endpoint"
           change_type := .delete
           current_state := [("status", .str ep.status), ("instance_type", .str ep.instance_type)]
           proposed_state := [("status", .str "Deleted")]
           cost_impact := current_cost.monthly_cost
           risk_level := .high
           warnings := ["Endpoint will need to be recreated to use again (5-10 minutes)",
                        "Inference requests will fail until endpoint is recreated"] }
  else none

/-- Embedding of `DryRunSimulator._simulate_cloudwatch_stop`. -/
def simulate_cloudwatch_stop (a : CloudWatchAlarm) : Option ResourceChange :=
  if a.enabled then
    some { resource_id := a.name
           resource_type := "cloudwatch_alarm"
           change_type := .disable
           current_state := [("enabled", .bool true)]
           proposed_state := [("enabled", .bool false)]
           cost_impact := (10 / 100) / 30
           risk_level := .low
           warnings := ["Alarm notifications will not be sent"] }
  else none

/-- Embedding of `DryRunSimulator._calculate_current_costs`. -/
def calculate_current_costs (r : ResourcesMap) : CostEstimate :=
  let kCosts := match r.kinesis with
    | none => []
    | some streams =>
        streams.filterMap (fun s =>
          if 0 < s.shard_count then some (calculate_kinesis_cost s.shard_count 24 0 0)
          else none)
  let lCosts := match r.lambdaFns with
    | none => []
    | some fns =>
        if 0 < fns.length then [calculate_lambda_cost fns.length 0 1000 1024 0] else []
  let sCosts := match r.sagemaker with
    | none => []
    | some eps =>
        eps.filterMap (fun ep =>
          if ep.status == "InService" then some (calculate_sagemaker_cost 1 ep.instance_type 1)
          else none)
  let cCosts := match r.cloudwatch with
    | none => []
    | some alarms =>
        if 0 < alarms.length then
          [calculate_cloudwatch_cost alarms.length 0 0 0
            (0 < (alarms.filter (fun a => a.enabled)).length)]
        else []
  calculate_total_cost (kCosts ++ lCosts ++ sCosts ++ cCosts)

/-- Embedding of `DryRunSimulator._apply_stop_changes`: present kinds are
mapped to floor configurations, absent kinds stay absent. -/
def apply_stop_changes (r : ResourcesMap) : ResourcesMap :=
  { kinesis := r.kinesis.map (List.map (fun s => { s with shard_count := 1 }))
    lambdaFns := r.lambdaFns.map (List.map (fun f => { f with reserved_concurrency := some 0 }))
    sagemaker := r.sagemaker.map (List.map (fun ep => { ep with status := "Deleted" }))
    cloudwatch := r.cloudwatch.map (List.map (fun a => { a with enabled := false })) }

/-- Per-kind change lists built by the simulate-stop loops. -/
def kinesisStopChanges (r : ResourcesMap) : List ResourceChange :=
  match r.kinesis with
  | none => []
  | some streams => streams.filterMap simulate_kinesis_stop

/-- Per-kind change lists built by the simulate-stop loops. -/
def lambdaStopChanges (r : ResourcesMap) : List ResourceChange :=
  match r.lambdaFns with
  | none => []
  | some fns => fns.filterMap simulate_lambda_stop

/-- Per-kind change lists built by the simulate-stop loops. -/
def sagemakerStopChanges (r : ResourcesMap) : List ResourceChange :=
  match r.sagemaker with
  | none => []
  | some eps => eps.filterMap simulate_sagemaker_stop

/-- Per-kind change lists built by the simulate-stop loops. -/
def cloudwatchStopChanges (r : ResourcesMap) : List ResourceChange :=
  match r.cloudwatch with
  | none => []
  | some alarms => alarms.filterMap simulate_cloudwatch_stop

/-- Embedding of `DryRunSimulator.simulate_stop_operation`: validate,
accumulate the per-kind changes in the source order (kinesis, lambda,
sagemaker, cloudwatch), and compute the total cost impact as current
monthly cost minus projected monthly cost after applying all changes. -/
def simulate_stop_operation (r : ResourcesMap) : DryRunResult :=
  let ew := validate_stop_operation r
  let current_costs := calculate_current_costs r
  let proposed_costs := calculate_current_costs (apply_stop_changes r)
  { operation := "stop"
    changes := kinesisStopChanges r ++ lambdaStopChanges r
      ++ sagemakerStopChanges r ++ cloudwatchStopChanges r
    total_cost_impact := current_costs.monthly_cost - proposed_costs.monthly_cost
    current_estimate := current_costs
    proposed_estimate := proposed_costs
    errors := ew.1
    warnings := ew.2 }

/-- The C4 scenario input: one stream with 2 shards, one function with null
reserved concurrency, one enabled alarm. -/
def c4Input : ResourcesMap :=
  { kinesis := some [⟨"user-events", 2⟩]
    lambdaFns := some [⟨"event_processor", none⟩]
    cloudwatch := some [⟨"alarm-1", true⟩] }

/-- Counterexample to claim C4: on the scenario input the simulation indeed
yields three changes and zero errors, but the total cost impact is 10.9
dollars per month, not the 10.8 of the stream's one-shard reduction alone:
the CloudWatch kind also moves the before/after cost delta, because the
cost model charges enabled alarms 0.10 per month and charges nothing once
all alarms are disabled. -/
theorem c4_counterexample :
    (simulate_stop_operation c4Input).changes.length = 3 ∧
    (simulate_stop_operation c4Input).errors = [] ∧
    (simulate_stop_operation c4Input).total_cost_impact = 109 / 10 ∧
    (calculate_kinesis_cost 2 24 0 0).monthly_cost
      - (calculate_kinesis_cost 1 24 0 0).monthly_cost = 54 / 5 ∧
    (simulate_stop_operation c4Input).total_cost_impact ≠
      (calculate_kinesis_cost 2 24 0 0).monthly_cost
        - (calculate_kinesis_cost 1 24 0 0).monthly_cost ∧
    (calculate_cloudwatch_cost 1 0 0 0 true).monthly_cost
      - (calculate_cloudwatch_cost 1 0 0 0 false).monthly_cost ≠ 0 := by
  refine ⟨rfl, rfl, ?_, ?_, ?_, ?_⟩
  · show (calculate_current_costs c4Input).monthly_cost
        - (calculate_current_costs (apply_stop_changes c4Input)).monthly_cost = 109 / 10
    norm_num [calculate_current_costs, c4Input, apply_stop_changes, calculate_total_cost,
      calculate_kinesis_cost, calculate_lambda_cost, calculate_cloudwatch_cost,
      SHARD_HOUR, ALARM_MONTHLY, LAMBDA_REQUEST, LAMBDA_GB_SECOND, FREE_TIER_REQUESTS,
      FREE_TIER_GB_SECONDS, LOG_INGESTION_GB, LOG_STORAGE_GB, CUSTOM_METRIC,
      List.filterMap_cons, List.filterMap_nil]
  · norm_num [calculate_kinesis_cost, SHARD_HOUR]
  · show (calculate_current_costs c4Input).monthly_cost
        - (calculate_current_costs (apply_stop_changes c4Input)).monthly_cost ≠ _
    norm_num [calculate_current_costs, c4Input, apply_stop_changes, calculate_total_cost,
      calculate_kinesis_cost, calculate_lambda_cost, calculate_cloudwatch_cost,
      SHARD_HOUR, ALARM_MONTHLY, LAMBDA_REQUEST, LAMBDA_GB_SECOND, FREE_TIER_REQUESTS,
      FREE_TIER_GB_SECONDS, LOG_INGESTION_GB, LOG_STORAGE_GB, CUSTOM_METRIC,
      List.filterMap_cons, List.filterMap_nil]
  · norm_num [calculate_cloudwatch_cost, ALARM_MONTHLY]

/-- Claim C4 as amended: the scenario yields exactly the three expected
changes (stream scaled down to 1 shard, function concurrency set to 0,
alarm disabled), zero errors, and a positive total cost impact of 10.9
dollars per month equal to the stream's one-shard reduction (10.8) plus the
enabled-alarm charge (0.1) that disappears when the alarm is disabled; the
function contributes zero. -/
theorem c4_amended :
    (simulate_stop_operation c4Input).changes =
      [⟨"user-events", "kinesis_stream", .scale_down,
        [("shard_count", .num 2)], [("shard_count", .num 1)], 54 / 5, .low, []⟩,
       ⟨"event_processor", "lambda_function", .disable,
        [("reserved_concurrency", .str "unlimited")], [("reserved_concurrency", .num 0)],
        0, .high,
        ["Function will not be able to process any requests",
         "Event source mappings will be paused"]⟩,
       ⟨"alarm-1", "cloudwatch_alarm", .disable,
        [("enabled", .bool true)], [("enabled", .bool false)], 1 / 300, .low,
        ["Alarm notifications will not be sent"]⟩] ∧
    (simulate_stop_operation c4Input).errors = [] ∧
    (simulate_stop_operation c4Input).warnings = [] ∧
    (simulate_stop_operation c4Input).total_cost_impact = 109 / 10 ∧
    0 < (simulate_stop_operation c4Input).total_cost_impact ∧
    (simulate_stop_operation c4Input).total_cost_impact =
      ((calculate_kinesis_cost 2 24 0 0).monthly_cost
        - (calculate_kinesis_cost 1 24 0 0).monthly_cost)
      + ((calculate_cloudwatch_cost 1 0 0 0 true).monthly_cost
        - (calculate_cloudwatch_cost 1 0 0 0 false).monthly_cost) ∧
    (calculate_lambda_cost 1 0 1000 1024 0).monthly_cost = 0 := by
  refine ⟨?_, rfl, rfl, ?_, ?_, ?_, ?_⟩
  · norm_num [simulate_stop_operation, c4Input, kinesisStopChanges, lambdaStopChanges,
      sagemakerStopChanges, cloudwatchStopChanges, List.filterMap_cons, List.filterMap_nil,
      simulate_kinesis_stop, simulate_lambda_stop, simulate_cloudwatch_stop,
      calculate_kinesis_cost, SHARD_HOUR]
  · show (calculate_current_costs c4Input).monthly_cost
        - (calculate_current_costs (apply_stop_changes c4Input)).monthly_cost = 109 / 10
    norm_num [calculate_current_costs, c4Input, apply_stop_changes, calculate_total_cost,
      calculate_kinesis_cost, calculate_lambda_cost, calculate_cloudwatch_cost,
      SHARD_HOUR, ALARM_MONTHLY, LAMBDA_REQUEST, LAMBDA_GB_SECOND, FREE_TIER_REQUESTS,
      FREE_TIER_GB_SECONDS, LOG_INGESTION_GB, LOG_STORAGE_GB, CUSTOM_METRIC,
      List.filterMap_cons, List.filterMap_nil]
  · show (0 : ℚ) < (calculate_current_costs c4Input).monthly_cost
        - (calculate_current_costs (apply_stop_changes c4Input)).monthly_cost
    norm_num [calculate_current_costs, c4Input, apply_stop_changes, calculate_total_cost,
      calculate_kinesis_cost, calculate_lambda_cost, calculate_cloudwatch_cost,
      SHARD_HOUR, ALARM_MONTHLY, LAMBDA_REQUEST, LAMBDA_GB_SECOND, FREE_TIER_REQUESTS,
      FREE_TIER_GB_SECONDS, LOG_INGESTION_GB, LOG_STORAGE_GB, CUSTOM_METRIC,
      List.filterMap_cons, List.filterMap_nil]
  · show (calculate_current_costs c4Input).monthly_cost
        - (calculate_current_costs (apply_stop_changes c4Input)).monthly_cost = _
    norm_num [calculate_current_costs, c4Input, apply_stop_changes, calculate_total_cost,
      calculate_kinesis_cost, calculate_lambda_cost, calculate_cloudwatch_cost,
      SHARD_HOUR, ALARM_MONTHLY, LAMBDA_REQUEST, LAMBDA_GB_SECOND, FREE_TIER_REQUESTS,
      FREE_TIER_GB_SECONDS, LOG_INGESTION_GB, LOG_STORAGE_GB, CUSTOM_METRIC,
      List.filterMap_cons, List.filterMap_nil]
  · norm_num [calculate_lambda_cost, FREE_TIER_REQUESTS, FREE_TIER_GB_SECONDS,
      LAMBDA_REQUEST, LAMBDA_GB_SECOND]

/-- Every change the Kinesis stop simulator emits is tagged kinesis_stream. -/
theorem simulate_kinesis_stop_spec (s : KinesisStream) (c : ResourceChange)
    (h : simulate_kinesis_stop s = some c) : c.resource_type = "kinesis_stream" := by
  unfold simulate_kinesis_stop at h
  split at h
  · exact absurd h (by simp)
  · injection h with h
    subst h
    rfl

/-- Every change the Lambda stop simulator emits is a disable of a
lambda_function at High risk. -/
theorem simulate_lambda_stop_spec (f : LambdaFunction) (c : ResourceChange)
    (h : simulate_lambda_stop f = some c) :
    c.resource_type = "lambda_function" ∧ c.change_type = .disable ∧
      c.risk_level = .high := by
  unfold simulate_lambda_stop at h
  split at h
  · exact absurd h (by simp)
  · injection h with h
    subst h
    exact ⟨rfl, rfl, rfl⟩

/-- Every change the SageMaker stop simulator emits is a delete of a
sagemaker_endpoint at High risk. -/
theorem simulate_sagemaker_stop_spec (ep : SageMakerEndpoint) (c : ResourceChange)
    (h : simulate_sagemaker_stop ep = some c) :
    c.resource_type = "sagemaker_endpoint" ∧ c.change_type = .delete ∧
      c.risk_level = .high := by
  unfold simulate_sagemaker_stop at h
  split at h
  · injection h with h
    subst h
    exact ⟨rfl, rfl, rfl⟩
  · exact absurd h (by simp)

/-- Every change the CloudWatch stop simulator emits is a disable of a
cloudwatch_alarm at Low risk. -/
theorem simulate_cloudwatch_stop_spec (a : CloudWatchAlarm) (c : ResourceChange)
    (h : simulate_cloudwatch_stop a = some c) :
    c.resource_type = "cloudwatch_alarm" ∧ c.change_type = .disable ∧
      c.risk_level = .low := by
  unfold simulate_cloudwatch_stop at h
  split at h
  · injection h with h
    subst h
    exact ⟨rfl, rfl, rfl⟩
  · exact absurd h (by simp)

/-- A member of the per-kind change list comes from the kind's simulator. -/
theorem mem_kinesisStopChanges (r : ResourcesMap) (c : ResourceChange)
    (hk : c ∈ kinesisStopChanges r) : ∃ s, simulate_kinesis_stop s = some c := by
  unfold kinesisStopChanges at hk
  cases hkin : r.kinesis with
  | none => rw [hkin] at hk; exact absurd hk (by simp)
  | some streams =>
      rw [hkin] at hk
      obtain ⟨s, _, hsome⟩ := List.mem_filterMap.mp hk
      exact ⟨s, hsome⟩

/-- A member of the per-kind change list comes from the kind's simulator. -/
theorem mem_lambdaStopChanges (r : ResourcesMap) (c : ResourceChange)
    (hl : c ∈ lambdaStopChanges r) : ∃ f, simulate_lambda_stop f = some c := by
  unfold lambdaStopChanges at hl
  cases hfn : r.lambdaFns with
  | none => rw [hfn] at hl; exact absurd hl (by simp)
  | some fns =>
      rw [hfn] at hl
      obtain ⟨f, _, hsome⟩ := List.mem_filterMap.mp hl
      exact ⟨f, hsome⟩

/-- A member of the per-kind change list comes from the kind's simulator. -/
theorem mem_sagemakerStopChanges (r : ResourcesMap) (c : ResourceChange)
    (hs : c ∈ sagemakerStopChanges r) : ∃ ep, simulate_sagemaker_stop ep = some c := by
  unfold sagemakerStopChanges at hs
  cases hsm : r.sagemaker with
  | none => rw [hsm] at hs; exact absurd hs (by simp)
  | some eps =>
      rw [hsm] at hs
      obtain ⟨ep, _, hsome⟩ := List.mem_filterMap.mp hs
      exact ⟨ep, hsome⟩

/-- A member of the per-kind change list comes from the kind's simulator. -/
theorem mem_cloudwatchStopChanges (r : ResourcesMap) (c : ResourceChange)
    (hcw : c ∈ cloudwatchStopChanges r) : ∃ a, simulate_cloudwatch_stop a = some c := by
  unfold cloudwatchStopChanges at hcw
  cases hal : r.cloudwatch with
  | none => rw [hal] at hcw; exact absurd hcw (by simp)
  | some alarms =>
      rw [hal] at hcw
      obtain ⟨a, _, hsome⟩ := List.mem_filterMap.mp hcw
      exact ⟨a, hsome⟩

/-- Claim C8: in every stop-simulation result, a change that disables a
Lambda function (reserved concurrency to 0) or deletes an in-service
SageMaker endpoint carries risk High or Critical, and a change that
disables a CloudWatch alarm carries risk Low. -/
theorem c8_risk_classification (r : ResourcesMap) (c : ResourceChange)
    (hc : c ∈ (simulate_stop_operation r).changes) :
    (c.resource_type = "lambda_function" ∧ c.change_type = .disable →
      c.risk_level = .high ∨ c.risk_level = .critical) ∧
    (c.resource_type = "sagemaker_endpoint" ∧ c.change_type = .delete →
      c.risk_level = .high ∨ c.risk_level = .critical) ∧
    (c.resource_type = "cloudwatch_alarm" ∧ c.change_type = .disable →
      c.risk_level = .low) := by
  have hch : (simulate_stop_operation r).changes =
      kinesisStopChanges r ++ lambdaStopChanges r
        ++ sagemakerStopChanges r ++ cloudwatchStopChanges r := rfl
  rw [hch] at hc
  simp only [List.mem_append] at hc
  rcases hc with (((hk | hl) | hs) | hcw)
  · obtain ⟨s, hsome⟩ := mem_kinesisStopChanges r c hk
    have ht := simulate_kinesis_stop_spec s c hsome
    refine ⟨?_, ?_, ?_⟩ <;> intro hcontra <;>
      exact absurd (ht.symm.trans hcontra.1) (by decide)
  · obtain ⟨f, hsome⟩ := mem_lambdaStopChanges r c hl
    have ht := simulate_lambda_stop_spec f c hsome
    refine ⟨fun _ => Or.inl ht.2.2, ?_, ?_⟩ <;> intro hcontra <;>
      exact absurd (ht.1.symm.trans hcontra.1) (by decide)
  · obtain ⟨ep, hsome⟩ := mem_sagemakerStopChanges r c hs
    have ht := simulate_sagemaker_stop_spec ep c hsome
    refine ⟨?_, fun _ => Or.inl ht.2.2, ?_⟩ <;> intro hcontra <;>
      exact absurd (ht.1.symm.trans hcontra.1) (by decide)
  · obtain ⟨a, hsome⟩ := mem_cloudwatchStopChanges r c hcw
    have ht := simulate_cloudwatch_stop_spec a c hsome
    refine ⟨?_, ?_, fun _ => ht.2.2⟩ <;> intro hcontra <;>
      exact absurd (ht.1.symm.trans hcontra.1) (by decide)

/-- Concrete input for the C8 witness: one function with no concurrency
limit, one in-service endpoint, one enabled alarm. -/
def c8Input : ResourcesMap :=
  { lambdaFns := some [⟨"fn", none⟩]
    sagemaker := some [⟨"ep", "InService", "ml.m5.large", 1⟩]
    cloudwatch := some [⟨"al", true⟩] }

/-- The change the C8 witness inspects: the simulated disable of the
function. -/
def c8LambdaChange : ResourceChange :=
  { resource_id := "fn"
    resource_type := "lambda_function"
    change_type := .disable
    current_state := [("reserved_concurrency", .str "unlimited")]
    proposed_state := [("reserved_concurrency", .num 0)]
    cost_impact := 0
    risk_level := .high
    warnings := ["Function will not be able to process any requests",
                 "Event source mappings will be paused"] }

/-- Witness for C8 at a concrete input: the simulated disable of the
function is in the result and carries High risk. -/
theorem c8_risk_classification_witness :
    c8LambdaChange ∈ (simulate_stop_operation c8Input).changes ∧
    (c8LambdaChange.resource_type = "lambda_function" ∧
        c8LambdaChange.change_type = .disable →
      c8LambdaChange.risk_level = .high ∨ c8LambdaChange.risk_level = .critical) := by
  have hmem : c8LambdaChange ∈ (simulate_stop_operation c8Input).changes :=
    List.mem_cons_self _ _
  exact ⟨hmem, (c8_risk_classification c8Input c8LambdaChange hmem).1⟩

/-- Error classes of the cost-management exception hierarchy as the retry
decorator distinguishes them. Throttling, Permission and ResourceNotFound
all subclass AWSServiceError; `unexpected` stands for any exception outside
that hierarchy. -/
inductive ErrClass where
  | throttling | permission | notFound | awsService | unexpected
deriving DecidableEq

/-- Whether the decorator's `except exceptions` clause catches the error
(default tuple `(ThrottlingError, AWSServiceError)` together with the
subclass relation); an uncaught exception hits the generic handler and is
re-raised at once. -/
def isCaught : ErrClass → Bool
  | .unexpected => false
  | _ => true

/-- One attempt of the wrapped function: a returned value or a raise. -/
inductive CallOutcome (α : Type) where
  | ok (a : α)
  | raises (e : ErrClass)
deriving DecidableEq

/-- How a wrapped call ends: a returned value, a re-raised error, or the
fall-through in which the loop body never recorded an exception (dead code
in the Python, where the wrapper would implicitly return None). -/
inductive RetryResult (α : Type) where
  | value (a : α)
  | raised (e : ErrClass)
  | fellThrough
deriving DecidableEq

/-- Observable trace of one wrapped call: the final outcome, the number of
calls made to the wrapped function, and the sleep durations in order. -/
structure RetryTrace (α : Type) where
  result : RetryResult α
  calls : Nat
  sleeps : List ℚ
deriving DecidableEq

/-- The loop body of `error_handler.retry_with_backoff`
(`for attempt in range(max_retries + 1)`): the wrapped function is a map
from attempt index to outcome; `remaining` counts the iterations left
(`max_retries + 1 - attempt`), making the recursion structural. A caught
error is re-raised at once when it is a permission error, or a not-found
error on any attempt after the first; otherwise the loop sleeps for the
current delay and doubles it (only while attempts remain below the cap) and
tries again; after the loop the last exception is re-raised. -/
def retryGo {α : Type} (f : Nat → CallOutcome α) (max_retries : Nat)
    (backoff_factor : ℚ) :
    Nat → Nat → ℚ → Option ErrClass → List ℚ → RetryTrace α
  | 0, attempt, _, lastE, acc =>
      { result := match lastE with | some e => .raised e | none => .fellThrough
        calls := attempt
        sleeps := acc.reverse }
  | remaining + 1, attempt, delay, _, acc =>
      match f attempt with
      | .ok a => { result := .value a, calls := attempt + 1, sleeps := acc.reverse }
      | .raises e =>
          if isCaught e = false then
            { result := .raised e, calls := attempt + 1, sleeps := acc.reverse }
          else if e = .permission then
            { result := .raised e, calls := attempt + 1, sleeps := acc.reverse }
          else if e = .notFound ∧ 0 < attempt then
            { result := .raised e, calls := attempt + 1, sleeps := acc.reverse }
          else if attempt < max_retries then
            retryGo f max_retries backoff_factor remaining (attempt + 1)
              (delay * backoff_factor) (some e) (delay :: acc)
          else
            retryGo f max_retries backoff_factor remaining (attempt + 1)
              delay (some e) acc

/-- Embedding of `retry_with_backoff`: run the loop for `max_retries + 1`
iterations starting at attempt 0 with the initial delay. -/
def retry_with_backoff {α : Type} (max_retries : Nat)
    (initial_delay backoff_factor : ℚ) (f : Nat → CallOutcome α) : RetryTrace α :=
  retryGo f max_retries backoff_factor (max_retries + 1) 0 initial_delay none []

/-- If every attempt up to the cap raises throttling, the loop runs all
iterations, sleeps a geometric sequence of delays, and re-raises. -/
theorem retryGo_all_throttle {α : Type} (f : Nat → CallOutcome α)
    (max_retries : Nat) (b : ℚ)
    (hf : ∀ i, i ≤ max_retries → f i = .raises .throttling) (k : Nat) :
    ∀ (attempt : Nat) (delay : ℚ) (lastE : Option ErrClass) (acc : List ℚ),
      attempt + k = max_retries →
      retryGo f max_retries b (k + 1) attempt delay lastE acc =
        { result := .raised .throttling
          calls := max_retries + 1
          sleeps := acc.reverse ++ (List.range k).map (fun i => delay * b ^ i) } := by
  induction k with
  | zero =>
      intro attempt delay lastE acc h
      have ha : attempt = max_retries := by omega
      subst ha
      show retryGo f attempt b (0 + 1) attempt delay lastE acc = _
      rw [retryGo, hf attempt (le_refl _)]
      simp [isCaught, retryGo]
  | succ k ih =>
      intro attempt delay lastE acc h
      have hlt : attempt < max_retries := by omega
      rw [retryGo, hf attempt (by omega)]
      simp only [isCaught]
      rw [if_neg (by simp), if_neg (by simp), if_neg (by simp), if_pos hlt]
      rw [ih (attempt + 1) (delay * b) (some .throttling) (delay :: acc) (by omega)]
      simp only [List.reverse_cons, List.append_assoc, List.range_succ_eq_map,
        List.map_cons, List.map_map, pow_zero, mul_one, List.singleton_append]
      refine congrArg _ (congrArg _ (congrArg _ ?_))
      apply List.map_congr_left
      intro i _
      simp [Function.comp, pow_succ]
      ring

/-- A run of attempts that all raise throttling can be skipped: the trace
from some attempt equals the trace from the attempt after the run, for some
delay, recorded exception and sleep accumulator. -/
theorem retryGo_skip {α : Type} (f : Nat → CallOutcome α) (max_retries : Nat)
    (b : ℚ) (j : Nat) :
    ∀ (attempt : Nat) (delay : ℚ) (lastE : Option ErrClass) (acc : List ℚ),
      attempt + j ≤ max_retries →
      (∀ i, attempt ≤ i → i < attempt + j → f i = .raises .throttling) →
      ∃ (delay2 : ℚ) (lastE2 : Option ErrClass) (acc2 : List ℚ),
        retryGo f max_retries b (max_retries + 1 - attempt) attempt delay lastE acc =
          retryGo f max_retries b (max_retries + 1 - (attempt + j)) (attempt + j)
            delay2 lastE2 acc2 := by
  induction j with
  | zero =>
      intro attempt delay lastE acc _ _
      exact ⟨delay, lastE, acc, rfl⟩
  | succ j ih =>
      intro attempt delay lastE acc hle hf
      have hlt : attempt < max_retries := by omega
      have hrem : max_retries + 1 - attempt = (max_retries - attempt) + 1 := by omega
      have hstep : retryGo f max_retries b (max_retries + 1 - attempt) attempt delay lastE acc =
          retryGo f max_retries b (max_retries - attempt) (attempt + 1)
            (delay * b) (some .throttling) (delay :: acc) := by
        rw [hrem, retryGo, hf attempt (le_refl _) (by omega)]
        simp only [isCaught]
        rw [if_neg (by simp), if_neg (by simp), if_neg (by simp), if_pos hlt]
      obtain ⟨d2, l2, a2, heq⟩ := ih (attempt + 1) (delay * b) (some .throttling)
        (delay :: acc) (by omega) (fun i h1 h2 => hf i (by omega) (by omega))
      refine ⟨d2, l2, a2, ?_⟩
      rw [hstep]
      rw [show max_retries + 1 - (attempt + 1) = max_retries - attempt from by omega] at heq
      rw [heq]
      rw [show attempt + 1 + j = attempt + (j + 1) from by omega]

/-- Claim C5: under the retry decorator, an operation whose failures are all
throttling-class is retried with exponentially increasing delays up to the
attempt cap and the failure is then re-raised; a permission failure
propagates on its first occurrence with no further attempts; a not-found
failure is retried when it occurs on the first attempt and propagates
immediately, with no further attempts, on any later attempt. -/
theorem c5_retry_policy {α : Type} (max_retries : Nat) (d b : ℚ)
    (fT fP fN1 fN2 : Nat → CallOutcome α) :
    ((∀ i, i ≤ max_retries → fT i = .raises .throttling) →
      retry_with_backoff max_retries d b fT =
        { result := .raised .throttling
          calls := max_retries + 1
          sleeps := (List.range max_retries).map (fun i => d * b ^ i) } ∧
      (0 < d → 1 < b →
        (retry_with_backoff max_retries d b fT).sleeps.Pairwise (· < ·)))
    ∧ (∀ k, k ≤ max_retries → (∀ i, i < k → fP i = .raises .throttling) →
        fP k = .raises .permission →
        (retry_with_backoff max_retries d b fP).result = .raised .permission ∧
        (retry_with_backoff max_retries d b fP).calls = k + 1)
    ∧ (∀ a, 1 ≤ max_retries → fN1 0 = .raises .notFound → fN1 1 = .ok a →
        (retry_with_backoff max_retries d b fN1).result = .value a ∧
        (retry_with_backoff max_retries d b fN1).calls = 2)
    ∧ (∀ k, 0 < k → k ≤ max_retries →
        (∀ i, i < k → fN2 i = .raises .throttling) →
        fN2 k = .raises .notFound →
        (retry_with_backoff max_retries d b fN2).result = .raised .notFound ∧
        (retry_with_backoff max_retries d b fN2).calls = k + 1) := by
  refine ⟨?_, ?_, ?_, ?_⟩
  · intro hf
    have htrace := retryGo_all_throttle fT max_retries b hf max_retries 0 d none []
      (by omega)
    constructor
    · rw [retry_with_backoff]
      rw [show max_retries + 1 = max_retries + 1 from rfl] at htrace
      simpa using htrace
    · intro hd hb
      rw [retry_with_backoff]
      rw [show (max_retries + 1 : Nat) = max_retries + 1 from rfl]
      rw [htrace]
      simp only [List.reverse_nil, List.nil_append]
      rw [List.pairwise_map]
      exact (List.pairwise_lt_range max_retries).imp
        (fun hij => mul_lt_mul_of_pos_left (pow_lt_pow_right₀ hb hij) hd)
  · intro k hk hpre hperm
    obtain ⟨d2, l2, a2, heq⟩ := retryGo_skip fP max_retries b k 0 d none []
      (by omega) (fun i h1 h2 => hpre i (by omega))
    have h0 : max_retries + 1 - 0 = max_retries + 1 := by omega
    rw [h0] at heq
    have hrem : max_retries + 1 - (0 + k) = (max_retries - k) + 1 := by omega
    rw [hrem] at heq
    have hfin : retryGo fP max_retries b ((max_retries - k) + 1) (0 + k) d2 l2 a2 =
        { result := .raised .permission, calls := (0 + k) + 1, sleeps := a2.reverse } := by
      rw [retryGo, show (0 + k) = k from by omega, hperm]
      simp [isCaught]
    rw [retry_with_backoff, heq, hfin]
    exact ⟨rfl, by simp⟩
  · intro a h1 hnf hok
    have hok1 : fN1 (0 + 1) = .ok a := hok
    have hstep : retry_with_backoff max_retries d b fN1 =
        { result := .value a, calls := 0 + 1 + 1, sleeps := [d] } := by
      rw [retry_with_backoff]
      rw [show max_retries + 1 = (max_retries - 1) + 1 + 1 from by omega]
      rw [retryGo, hnf]
      simp only [isCaught]
      rw [if_neg (by simp), if_neg (by simp), if_neg (by simp), if_pos (by omega)]
      rw [retryGo, hok1]
      rfl
    rw [hstep]
    exact ⟨rfl, rfl⟩
  · intro k hk0 hk hpre hnf
    obtain ⟨d2, l2, a2, heq⟩ := retryGo_skip fN2 max_retries b k 0 d none []
      (by omega) (fun i h1 h2 => hpre i (by omega))
    have h0 : max_retries + 1 - 0 = max_retries + 1 := by omega
    rw [h0] at heq
    have hrem : max_retries + 1 - (0 + k) = (max_retries - k) + 1 := by omega
    rw [hrem] at heq
    have hfin : retryGo fN2 max_retries b ((max_retries - k) + 1) (0 + k) d2 l2 a2 =
        { result := .raised .notFound, calls := (0 + k) + 1, sleeps := a2.reverse } := by
      rw [retryGo, show (0 + k) = k from by omega, hnf]
      simp [isCaught, hk0]
    rw [retry_with_backoff, heq, hfin]
    exact ⟨rfl, by simp⟩

/-- Wrapped function that raises throttling on every attempt. -/
def c5Throttle : Nat → CallOutcome Nat := fun _ => .raises .throttling

/-- Wrapped function that throttles once and then hits a permission error. -/
def c5Perm : Nat → CallOutcome Nat :=
  fun i => if i = 1 then .raises .permission else .raises .throttling

/-- Wrapped function that is not found on the first attempt and succeeds on
the retry. -/
def c5NotFound1 : Nat → CallOutcome Nat :=
  fun i => if i = 0 then .raises .notFound else .ok 42

/-- Wrapped function that throttles twice and is then not found. -/
def c5NotFound2 : Nat → CallOutcome Nat :=
  fun i => if i = 2 then .raises .notFound else .raises .throttling

/-- Witness for C5 at the decorator defaults of the manager methods
(max_retries 3, initial delay 1, backoff factor 2): the four retry policies
observed on concrete wrapped functions. -/
theorem c5_retry_policy_witness :
    (retry_with_backoff 3 1 2 c5Throttle =
      { result := .raised .throttling, calls := 4,
        sleeps := (List.range 3).map (fun i => (1 : ℚ) * 2 ^ i) } ∧
      (retry_with_backoff 3 1 2 c5Throttle).sleeps.Pairwise (· < ·)) ∧
    ((retry_with_backoff 3 1 2 c5Perm).result = .raised .permission ∧
      (retry_with_backoff 3 1 2 c5Perm).calls = 2) ∧
    ((retry_with_backoff 3 1 2 c5NotFound1).result = .value 42 ∧
      (retry_with_backoff 3 1 2 c5NotFound1).calls = 2) ∧
    ((retry_with_backoff 3 1 2 c5NotFound2).result = .raised .notFound ∧
      (retry_with_backoff 3 1 2 c5NotFound2).calls = 3) := by
  refine ⟨?_, ?_, ?_, ?_⟩
  · have h := (c5_retry_policy 3 1 2 c5Throttle c5Perm c5NotFound1 c5NotFound2).1
      (fun i _ => rfl)
    exact ⟨h.1, h.2 (by norm_num) (by norm_num)⟩
  · exact (c5_retry_policy 3 1 2 c5Throttle c5Perm c5NotFound1 c5NotFound2).2.1 1
      (by omega) (fun i hi => by have h0 : i = 0 := Nat.lt_one_iff.mp hi; subst h0; rfl) rfl
  · exact (c5_retry_policy 3 1 2 c5Throttle c5Perm c5NotFound1 c5NotFound2).2.2.1 42
      (by omega) rfl rfl
  · exact (c5_retry_policy 3 1 2 c5Throttle c5Perm c5NotFound1 c5NotFound2).2.2.2 2
      (by omega) (by omega) (fun i hi => by interval_cases i <;> rfl) rfl

/-- Lookup of a function in the Lambda cloud state: `none` when the
function does not exist (get_function_config returns None), otherwise its
reserved concurrency (`some none` = no limit, `some (some n)` = limit n). -/
def lookupFn : List (String × Option Int) → String → Option (Option Int)
  | [], _ => none
  | kv :: rest, n => if kv.1 == n then some kv.2 else lookupFn rest n

/-- Effect of `put_function_concurrency` on the cloud state: the stored
concurrency of the named function becomes `v`. -/
def setFnConcurrency : List (String × Option Int) → String → Option Int →
    List (String × Option Int)
  | [], _, _ => []
  | kv :: rest, name, v =>
      (if kv.1 == name then (kv.1, v) else kv) :: setFnConcurrency rest name v

/-- Accumulator of the `LambdaManager.stop` loop: cloud state, the three
result lists, and the number of mutating cloud calls issued. -/
structure LambdaStopState where
  cloud : List (String × Option Int)
  resources_affected : List String
  errors : List String
  warnings : List String
  mutating_calls : Nat
deriving DecidableEq

/-- The per-function loop of `LambdaManager.stop` over a healthy cloud
(no call raises): an absent function becomes a warning; a function already
at concurrency 0 becomes a warning and is counted as affected; in dry run
the mutation is only logged; otherwise `put_function_concurrency 0` is
issued. -/
def lambdaStopGo (is_dry_run : Bool) : List String → LambdaStopState → LambdaStopState
  | [], st => st
  | name :: rest, st =>
      match lookupFn st.cloud name with
      | none =>
          lambdaStopGo is_dry_run rest
            { st with warnings := st.warnings ++ ["Function not found: " ++ name] }
      | some rc =>
          if rc == some 0 then
            lambdaStopGo is_dry_run rest
              { st with
                warnings := st.warnings ++ [name ++ ": already stopped"]
                resources_affected := st.resources_affected ++ [name] }
          else if is_dry_run then
            lambdaStopGo is_dry_run rest
              { st with resources_affected := st.resources_affected ++ [name] }
          else
            lambdaStopGo is_dry_run rest
              { st with
                cloud := setFnConcurrency st.cloud name (some 0)
                resources_affected := st.resources_affected ++ [name]
                mutating_calls := st.mutating_calls + 1 }

/-- Embedding of `LambdaManager.stop` over a healthy cloud: run the loop
over the managed function names, then build the ServiceResult with
success = "no errors and at least one resource affected"; also returns the
new cloud state and the mutating-call count. -/
def lambda_manager_stop (function_names : List String)
    (cloud : List (String × Option Int)) (is_dry_run : Bool) :
    ServiceResult × List (String × Option Int) × Nat :=
  let st := lambdaStopGo is_dry_run function_names ⟨cloud, [], [], [], 0⟩
  ({ success := st.errors.isEmpty && !st.resources_affected.isEmpty
     operation := "stop"
     service_type := "lambda"
     resources_affected := st.resources_affected
     errors := st.errors
     warnings := st.warnings }, st.cloud, st.mutating_calls)

/-- Embedding of `KinesisManager.stop` over a healthy cloud holding the
stream's shard count: at or below the minimal shard count (1) the call
returns success with an already-stopped warning and issues no mutating
call; in dry run it only logs; otherwise it issues `update_shard_count`
down to 1. Returns the result, the new shard count and the mutating-call
count. -/
def kinesis_manager_stop (stream_name : String) (shard_count : Int)
    (is_dry_run : Bool) : ServiceResult × Int × Nat :=
  if shard_count ≤ 1 then
    ({ success := true, operation := "stop", service_type := "kinesis"
       resources_affected := [stream_name]
       errors := []
       warnings := ["Stream already at minimal shard count: " ++ toString shard_count] },
     shard_count, 0)
  else if is_dry_run then
    ({ success := true, operation := "stop", service_type := "kinesis"
       resources_affected := [stream_name], errors := [], warnings := [] },
     shard_count, 0)
  else
    ({ success := true, operation := "stop", service_type := "kinesis"
       resources_affected := [stream_name], errors := [], warnings := [] },
     1, 1)

/-- Updating one function's concurrency changes exactly that function's
stored value and nothing else. -/
theorem lookupFn_setFnConcurrency (c : List (String × Option Int))
    (name : String) (v : Option Int) (n : String) :
    lookupFn (setFnConcurrency c name v) n =
      if n = name then (lookupFn c n).map (fun _ => v) else lookupFn c n := by
  induction c with
  | nil => by_cases h : n = name <;> simp [setFnConcurrency, lookupFn, h]
  | cons kv rest ih =>
      by_cases h1 : kv.1 = name <;> by_cases h2 : kv.1 = n <;>
        by_cases h3 : n = name <;>
        simp_all [setFnConcurrency, lookupFn]

/-- The stop loop never records an error over a healthy cloud. -/
theorem lambdaStopGo_errors (dry : Bool) :
    ∀ (names : List String) (st : LambdaStopState),
      (lambdaStopGo dry names st).errors = st.errors := by
  intro names
  induction names with
  | nil => intro st; rfl
  | cons name rest ih =>
      intro st
      show (lambdaStopGo dry (name :: rest) st).errors = st.errors
      rw [lambdaStopGo]
      split
      · rw [ih]
      · split
        · rw [ih]
        · split
          · rw [ih]
          · rw [ih]

/-- A non-dry stop run leaves every function it visited at concurrency 0
and leaves functions it did not visit untouched. -/
theorem lambdaStopGo_stops_all :
    ∀ (names : List String) (st : LambdaStopState) (n : String) (rc : Option Int),
      lookupFn (lambdaStopGo false names st).cloud n = some rc →
      (n ∈ names → rc = some 0) ∧ (n ∉ names → lookupFn st.cloud n = some rc) := by
  intro names
  induction names with
  | nil =>
      intro st n rc h
      exact ⟨fun hmem => absurd hmem (List.not_mem_nil n), fun _ => h⟩
  | cons name rest ih =>
      intro st n rc h
      rw [lambdaStopGo] at h
      split at h
      · rename_i hl
        obtain ⟨hin, hout⟩ := ih _ n rc h
        constructor
        · intro hmem
          rcases List.mem_cons.mp hmem with heq | hrest
          · subst heq
            by_cases hr : n ∈ rest
            · exact hin hr
            · exact absurd ((hout hr).symm.trans hl) (by simp)
          · exact hin hrest
        · intro hmem
          exact hout (fun hr => hmem (List.mem_cons_of_mem _ hr))
      · rename_i rc0 hl
        split at h
        · rename_i h0
          obtain ⟨hin, hout⟩ := ih _ n rc h
          constructor
          · intro hmem
            rcases List.mem_cons.mp hmem with heq | hrest
            · subst heq
              by_cases hr : n ∈ rest
              · exact hin hr
              · have h00 : rc0 = some 0 := by simpa using h0
                have hrr : rc0 = rc := Option.some_inj.mp (hl.symm.trans (hout hr))
                rw [← hrr]
                exact h00
            · exact hin hrest
          · intro hmem
            exact hout (fun hr => hmem (List.mem_cons_of_mem _ hr))
        · rename_i h0
          split at h
          · rename_i hdry
            exact absurd hdry (by simp)
          · obtain ⟨hin, hout⟩ := ih _ n rc h
            constructor
            · intro hmem
              rcases List.mem_cons.mp hmem with heq | hrest
              · subst heq
                by_cases hr : n ∈ rest
                · exact hin hr
                · have hset := hout hr
                  rw [lookupFn_setFnConcurrency] at hset
                  rw [if_pos rfl, hl] at hset
                  simp at hset
                  exact hset.symm
              · exact hin hrest
            · intro hmem
              have hset := hout (fun hr => hmem (List.mem_cons_of_mem _ hr))
              rw [lookupFn_setFnConcurrency] at hset
              rw [if_neg (show ¬n = name from
                fun hnn => hmem (by rw [hnn]; exact List.mem_cons_self name rest))] at hset
              exact hset

/-- The stop loop never creates or deletes functions: existence in the
cloud state is preserved. -/
theorem lambdaStopGo_presence :
    ∀ (names : List String) (st : LambdaStopState) (n : String),
      (lookupFn (lambdaStopGo false names st).cloud n).isSome =
        (lookupFn st.cloud n).isSome := by
  intro names
  induction names with
  | nil => intro st n; rfl
  | cons name rest ih =>
      intro st n
      rw [lambdaStopGo]
      split
      · rw [ih]
      · split
        · rw [ih]
        · split
          · rename_i hdry
            exact absurd hdry (by simp)
          · rw [ih]
            show (lookupFn (setFnConcurrency st.cloud name (some 0)) n).isSome = _
            rw [lookupFn_setFnConcurrency]
            by_cases hn : n = name
            · rw [if_pos hn]
              cases lookupFn st.cloud n <;> rfl
            · rw [if_neg hn]

/-- A non-dry stop run over a cloud in which every managed function is
already at concurrency 0 issues no mutating call, leaves the cloud
unchanged, counts every existing function as affected, and warns
"already stopped" for every existing function and "not found" for every
absent one. -/
theorem lambdaStopGo_all_stopped :
    ∀ (names : List String) (st : LambdaStopState),
      (∀ n ∈ names, ∀ rc, lookupFn st.cloud n = some rc → rc = some 0) →
      lambdaStopGo false names st =
        { cloud := st.cloud
          resources_affected := st.resources_affected ++
            names.filter (fun n => (lookupFn st.cloud n).isSome)
          errors := st.errors
          warnings := st.warnings ++ names.map (fun n =>
            if (lookupFn st.cloud n).isSome then n ++ ": already stopped"
            else "Function not found: " ++ n)
          mutating_calls := st.mutating_calls } := by
  intro names
  induction names with
  | nil =>
      intro st _
      rw [lambdaStopGo]
      simp
  | cons name rest ih =>
      intro st hstop
      rw [lambdaStopGo]
      split
      · rename_i hl
        rw [ih { st with warnings := st.warnings ++ ["Function not found: " ++ name] }
          (fun n hn rc h => hstop n (List.mem_cons_of_mem _ hn) rc h)]
        simp [List.filter_cons, hl]
      · rename_i rc0 hl
        have h00 : rc0 = some 0 := hstop name (List.mem_cons_self _ _) rc0 hl
        rw [if_pos (by simp [h00])]
        rw [ih { st with
              warnings := st.warnings ++ [name ++ ": already stopped"]
              resources_affected := st.resources_affected ++ [name] }
          (fun n hn rc h => hstop n (List.mem_cons_of_mem _ hn) rc h)]
        simp [List.filter_cons, hl]

/-- Claim C7: a second stop call in succession, over a healthy cloud,
returns zero errors and success, a warning for every already-stopped
resource, an affected list with no duplicated identifier, and issues no
mutating cloud call (for the Lambda manager, provided the managed names
are distinct and at least one function exists; for the Kinesis manager
unconditionally); the cloud state is unchanged by the second call. -/
theorem c7_stop_idempotent :
    (∀ (function_names : List String) (cloud : List (String × Option Int))
        (r1 : ServiceResult) (c1 : List (String × Option Int)) (m1 : Nat)
        (r2 : ServiceResult) (c2 : List (String × Option Int)) (m2 : Nat),
      function_names.Nodup →
      (∃ n ∈ function_names, (lookupFn cloud n).isSome) →
      lambda_manager_stop function_names cloud false = (r1, c1, m1) →
      lambda_manager_stop function_names c1 false = (r2, c2, m2) →
      r2.errors = [] ∧ r2.success = true ∧
      (∀ n ∈ function_names, (lookupFn c1 n).isSome →
        (n ++ ": already stopped") ∈ r2.warnings) ∧
      r2.resources_affected.Nodup ∧ m2 = 0 ∧ c2 = c1)
    ∧ (∀ (stream_name : String) (shard_count : Int)
        (r1 : ServiceResult) (s1 : Int) (m1 : Nat)
        (r2 : ServiceResult) (s2 : Int) (m2 : Nat),
      kinesis_manager_stop stream_name shard_count false = (r1, s1, m1) →
      kinesis_manager_stop stream_name s1 false = (r2, s2, m2) →
      r2.errors = [] ∧ r2.success = true ∧
      r2.warnings = ["Stream already at minimal shard count: " ++ toString s1] ∧
      r2.resources_affected = [stream_name] ∧ r2.resources_affected.Nodup ∧
      m2 = 0 ∧ s2 = s1) := by
  constructor
  · intro names cloud r1 c1 m1 r2 c2 m2 hnd hex h1 h2
    have hc1 : c1 = (lambdaStopGo false names ⟨cloud, [], [], [], 0⟩).cloud := by
      have hp := congrArg (fun p => p.2.1) h1
      simpa [lambda_manager_stop] using hp.symm
    have hstop : ∀ n ∈ names, ∀ rc, lookupFn c1 n = some rc → rc = some 0 := by
      intro n hn rc h
      rw [hc1] at h
      exact (lambdaStopGo_stops_all names _ n rc h).1 hn
    have hpres : ∀ n, (lookupFn c1 n).isSome = (lookupFn cloud n).isSome := by
      intro n
      rw [hc1]
      exact lambdaStopGo_presence names _ n
    have hrun := lambdaStopGo_all_stopped names ⟨c1, [], [], [], 0⟩ hstop
    rw [lambda_manager_stop] at h2
    simp only [hrun] at h2
    obtain ⟨n0, hn0, hp0⟩ := hex
    have hp1 : (lookupFn c1 n0).isSome := by rw [hpres]; exact hp0
    have hmemf : n0 ∈ names.filter (fun n => (lookupFn c1 n).isSome) :=
      List.mem_filter.mpr ⟨hn0, hp1⟩
    have hne : names.filter (fun n => (lookupFn c1 n).isSome) ≠ [] :=
      List.ne_nil_of_mem hmemf
    injection h2 with hr2 h23
    injection h23 with hc2 hm2
    refine ⟨?_, ?_, ?_, ?_, ?_, ?_⟩
    · rw [← hr2]
    · rw [← hr2]
      simp [List.isEmpty_iff, hne]
    · intro n hn hp
      rw [← hr2]
      simp only [List.nil_append]
      exact List.mem_map.mpr ⟨n, hn, by rw [if_pos hp]⟩
    · rw [← hr2]
      simp only [List.nil_append]
      exact hnd.filter _
    · rw [← hm2]
    · rw [← hc2]
  · intro stream_name shard_count r1 s1 m1 r2 s2 m2 h1 h2
    have hs1 : s1 ≤ 1 := by
      rw [kinesis_manager_stop] at h1
      by_cases hs : shard_count ≤ 1
      · rw [if_pos hs] at h1
        injection h1 with _ h1b
        injection h1b with h1s _
        omega
      · rw [if_neg hs, if_neg (by simp)] at h1
        injection h1 with _ h1b
        injection h1b with h1s _
        omega
    rw [kinesis_manager_stop, if_pos hs1] at h2
    injection h2 with hr2 h23
    injection h23 with hs2 hm2
    refine ⟨by rw [← hr2], by rw [← hr2], by rw [← hr2], by rw [← hr2], ?_,
      by rw [← hm2], by rw [← hs2]⟩
    rw [← hr2]
    simp

/-- The two managed function names of the C7 witness. -/
def c7Names : List String := ["event_processor", "intervention-executor"]

/-- Initial cloud for the C7 witness: one function with a concurrency limit
of 5, one with no limit. -/
def c7Cloud : List (String × Option Int) :=
  [("event_processor", some 5), ("intervention-executor", none)]

/-- Cloud after the first stop call of the C7 witness: both functions at
concurrency 0. -/
def c7CloudStopped : List (String × Option Int) :=
  [("event_processor", some 0), ("intervention-executor", some 0)]

/-- Result of the first stop call of the C7 witness. -/
def c7FirstResult : ServiceResult :=
  { success := true, operation := "stop", service_type := "lambda"
    resources_affected := c7Names, errors := [], warnings := [] }

/-- Result of the second stop call of the C7 witness. -/
def c7SecondResult : ServiceResult :=
  { success := true, operation := "stop", service_type := "lambda"
    resources_affected := c7Names, errors := []
    warnings := ["event_processor: already stopped",
                 "intervention-executor: already stopped"] }

/-- Result of the first Kinesis stop call of the C7 witness. -/
def c7KFirstResult : ServiceResult :=
  { success := true, operation := "stop", service_type := "kinesis"
    resources_affected := ["user-journey-analytics-user-events"]
    errors := [], warnings := [] }

/-- Result of the second Kinesis stop call of the C7 witness. -/
def c7KSecondResult : ServiceResult :=
  { success := true, operation := "stop", service_type := "kinesis"
    resources_affected := ["user-journey-analytics-user-events"], errors := []
    warnings := ["Stream already at minimal shard count: 1"] }

/-- Witness for C7 at concrete inputs: two functions stopped twice in a
row, and a two-shard stream stopped twice in a row. -/
theorem c7_stop_idempotent_witness :
    (c7SecondResult.errors = [] ∧ c7SecondResult.success = true ∧
      (∀ n ∈ c7Names, (lookupFn c7CloudStopped n).isSome →
        (n ++ ": already stopped") ∈ c7SecondResult.warnings) ∧
      c7SecondResult.resources_affected.Nodup ∧ (0 : Nat) = 0 ∧
      c7CloudStopped = c7CloudStopped) ∧
    (c7KSecondResult.errors = [] ∧ c7KSecondResult.success = true ∧
      c7KSecondResult.warnings =
        ["Stream already at minimal shard count: " ++ toString (1 : Int)] ∧
      c7KSecondResult.resources_affected = ["user-journey-analytics-user-events"] ∧
      c7KSecondResult.resources_affected.Nodup ∧ (0 : Nat) = 0 ∧ (1 : Int) = 1) := by
  constructor
  · exact c7_stop_idempotent.1 c7Names c7Cloud c7FirstResult c7CloudStopped 2
      c7SecondResult c7CloudStopped 0 (by decide)
      ⟨"event_processor", by decide, by decide⟩ rfl rfl
  · exact c7_stop_idempotent.2 "user-journey-analytics-user-events" 2
      c7KFirstResult 1 1 c7KSecondResult 1 0 rfl rfl

end UserJourneyAgent
